import Mathlib

/-!
# Verification of `build_containers.py` (bemanproject/infra-containers)

Shallow embedding of the container build orchestrator in
`src/build_containers.py`.  The script drives a Docker engine to build two
dependent images (a Clang compiler image and a devcontainer image layered on
it), with a dry-run (simulation) mode, a verbose mode, per-stage log files,
an image-existence pre-flight check, and exit-code based error reporting.

Modelling conventions:

* The Docker engine and the process environment are external collaborators.
  Each stage function takes the engine's responses as explicit parameters:
  the result of `client.api.build(...)` is an `Except Exc (List StreamItem)`
  (the call either raises or yields a finite event stream), and the result of
  `client.images.get(tag)` inside `_image_exists` is an `Except Exc Unit`
  (`.ok` = found, `.error imageNotFound` = `ImageNotFound` raised, other
  errors model other engine faults).
* Python exceptions are the `Exc` inductive.  `KeyboardInterrupt` is NOT a
  subclass of `Exception` in Python, so the `except Exception` clauses in the
  stage functions do not catch it; our `catchExc` reflects this.
  `docker.errors.ImageNotFound` IS a subclass of `APIError`, so outside of
  `_image_exists` it is caught by the `except APIError` clause.
* A build stream is a list of `StreamItem`: either a decoded chunk (a dict
  with a `stream`, `status`, or `error` key, or none of them), or
  `raiseExc e`, modelling the iterator itself raising `e` mid-iteration
  (engine transport fault or external interrupt while blocked on the stream).
* Side effects are made explicit: each function returns, besides the exit
  code (or an escaping exception), the list of external calls it performed
  (`Call`), the lines printed to stdout/stderr, and what happened to the log
  file.  The source prefixes many messages with decorative glyph bytes
  (mojibake emoji in the file); these carry no information and are omitted
  from the modelled strings.
* The `finally` block of `_stream_build_output` closes the log handle and
  prints the log path on every exit path (normal exhaustion, the
  `BuildError` raise, and any exception from the iterator); the
  `SinkResult.closed` and `SinkResult.pathReports` fields record this.
-/

namespace BuildContainers

/-- Python exceptions relevant to the script.  `imageNotFound` models
`docker.errors.ImageNotFound` (a subclass of `APIError`), `buildError`
models `docker.errors.BuildError`, `apiError` all other `APIError`s,
`keyboardInterrupt` models `KeyboardInterrupt` (not an `Exception`
subclass), and `otherError` any other `Exception`. -/
inductive Exc where
  | buildError (msg : String)
  | apiError (msg : String)
  | imageNotFound (msg : String)
  | keyboardInterrupt
  | otherError (msg : String)
  deriving DecidableEq, Repr

/-- A decoded chunk of the engine's build-event stream, as discriminated by
`_stream_build_output`: a dict holding a `stream` key (text), a `status` key
(with optional `id`), an `error` key, or none of these (ignored). -/
inductive ProgressEvent where
  | textChunk (text : String)
  | statusUpdate (i : Option String) (msg : String)
  | errorSignal (msg : String)
  | otherChunk
  deriving DecidableEq, Repr

/-- One step of iterating the engine's event stream: either the iterator
yields a decoded chunk, or the iteration itself raises an exception
(transport fault, external interrupt). -/
inductive StreamItem where
  | chunk (e : ProgressEvent)
  | raiseExc (e : Exc)
  deriving DecidableEq, Repr

/-- External calls a stage can perform: an engine build
(`client.api.build` with a dockerfile, a tag and build args) or an
image-store query (`client.images.get` inside `_image_exists`). -/
inductive Call where
  | engineBuild (dockerfile : String) (tag : String) (buildargs : List (String × String))
  | oracleQuery (tag : String)
  deriving DecidableEq, Repr

/-- `true` exactly on engine build calls. -/
def Call.isEngineBuildCall : Call → Bool
  | .engineBuild _ _ _ => true
  | .oracleQuery _ => false

/-- Interactive line printed for a `status` chunk under verbose mode:
`"<id>: <status>"` when an `id` key is present, else the status alone. -/
def statusLine : Option String → String → String
  | some i, msg => i ++ ": " ++ msg
  | none, msg => msg

/-- Result of the `for chunk in stream` loop body of `_stream_build_output`
(before the `finally` block): text written to the log handle (empty when no
handle is open), interactive stdout prints, stderr prints, and how the loop
ended (`.ok` = stream exhausted, `.error e` = exception `e` about to
propagate: the `BuildError` raised on an `error` chunk, or an exception
raised by the iterator itself). -/
structure LoopOut where
  content : String
  out : List String
  err : List String
  outcome : Except Exc Unit
  deriving Repr

/-- The `for chunk in stream` loop of `_stream_build_output`.  `hasLog`
says whether a log handle is open.  A `stream` chunk is appended to the log
(and echoed when verbose); a `status` chunk is echoed only when verbose; an
`error` chunk prints to stderr, writes an `ERROR:` marker line to the log,
and raises `BuildError`; an unrecognized chunk is ignored; `raiseExc e`
aborts the iteration with `e`. -/
def streamLoop (verbose hasLog : Bool) : List StreamItem → LoopOut
  | [] => ⟨"", [], [], .ok ()⟩
  | .chunk (.textChunk text) :: rest =>
      let r := streamLoop verbose hasLog rest
      ⟨(if hasLog then text else "") ++ r.content,
       (if verbose then [text] else []) ++ r.out, r.err, r.outcome⟩
  | .chunk (.statusUpdate i msg) :: rest =>
      let r := streamLoop verbose hasLog rest
      ⟨r.content, (if verbose then [statusLine i msg] else []) ++ r.out, r.err, r.outcome⟩
  | .chunk (.errorSignal msg) :: _ =>
      ⟨if hasLog then "ERROR: " ++ msg ++ "\n" else "",
       [], ["Build error: " ++ msg], .error (.buildError msg)⟩
  | .chunk .otherChunk :: rest => streamLoop verbose hasLog rest
  | .raiseExc e :: _ => ⟨"", [], [], .error e⟩

/-- Observable behaviour of one `_stream_build_output` invocation.
`opened` records whether a log handle was opened (`log_file` given and not
dry-run); `content` is everything written to it; `closed` whether the handle
was closed by the `finally` block; `pathReports` how many times the
`Build log saved to` line was printed; `outcome` is `.ok` on normal return
and `.error e` when exception `e` propagates out of the sink. -/
structure SinkResult where
  opened : Bool
  content : String
  closed : Bool
  pathReports : Nat
  stdout : List String
  stderr : List String
  outcome : Except Exc Unit
  deriving Repr

/-- `_stream_build_output(stream, description, log_file)`: prints the
description, opens the log file when one is given and not in dry-run mode,
runs the event loop, and — in the `finally` block, hence on every exit
path — closes the handle and reports the log path once, if a handle was
opened. -/
def stream_build_output (stream : List StreamItem) (description : String)
    (log_file : Option String) (verbose dryRun : Bool) : SinkResult :=
  let opened := log_file.isSome && !dryRun
  let r := streamLoop verbose opened stream
  { opened := opened
    content := r.content
    closed := opened
    pathReports := if opened then 1 else 0
    stdout := ["\n" ++ description] ++ r.out ++
      (if opened then ["Build log saved to: " ++ log_file.getD ""] else [])
    stderr := r.err
    outcome := r.outcome }

/-- The `except` clauses shared by `build_clang` and `build_devcontainer`:
`except BuildError` / `except APIError` (which also catches the
`ImageNotFound` subclass) / `except Exception` each print a marked stderr
line and return exit code 1.  `KeyboardInterrupt` is not an `Exception`
subclass in Python, so none of the clauses catch it and it keeps
propagating. -/
def catchExc : Exc → Except Exc (Int × String)
  | .buildError msg => .ok (1, "Build failed: " ++ msg)
  | .apiError msg => .ok (1, "Docker API error: " ++ msg)
  | .imageNotFound msg => .ok (1, "Docker API error: " ++ msg)
  | .keyboardInterrupt => .error .keyboardInterrupt
  | .otherError msg => .ok (1, "Unexpected error: " ++ msg)

/-- `_image_exists(image_tag)`: in dry-run mode, returns `true` without any
engine contact; in live mode it queries `client.images.get(image_tag)`,
mapping success to `true` and `ImageNotFound` to `false`, while any other
exception from the query propagates.  Returns the answer (or the escaping
exception) together with the engine calls performed. -/
def image_exists (dryRun : Bool) (image_tag : String) (getResp : Except Exc Unit) :
    Except Exc Bool × List Call :=
  if dryRun then (.ok true, [])
  else
    match getResp with
    | .ok _ => (.ok true, [.oracleQuery image_tag])
    | .error (.imageNotFound _) => (.ok false, [.oracleQuery image_tag])
    | .error e => (.error e, [.oracleQuery image_tag])

/-- Default LLVM git repository URL (the `--git-url` CLI default). -/
def defaultGitUrl : String := "https://github.com/llvm/llvm-project.git"

/-- Renders a build-args mapping for the dry-run report (the source prints
the Python dict; the exact rendering is immaterial to behaviour). -/
def formatArgs (args : List (String × String)) : String :=
  String.intercalate ", " (args.map fun p => p.1 ++ "=" ++ p.2)

/-- Observable behaviour of one stage function (`build_clang` or
`build_devcontainer`): `result` is `.ok code` when the function returns exit
code `code` and `.error e` when exception `e` escapes it uncaught; `calls`
are the external calls performed, in order; `sink` is the
`_stream_build_output` invocation if one happened; `tag` the image tag the
stage computed. -/
structure StageResult where
  result : Except Exc Int
  calls : List Call
  sink : Option SinkResult
  stdout : List String
  stderr : List String
  tag : String
  deriving Repr

/-- `build_clang(version, git_ref, git_url, jobs, tag_suffix)`: derives the
default git ref `llvmorg-{version}.1.2` when none is given, the tag
`clang-ubuntu:{version}{tag_suffix}` and the log file
`build-clang-{version}.log`; in dry-run mode prints the plan and returns 0
with no engine contact; otherwise calls the engine build (with `rm=True`)
and streams its output to the log sink — with no log file when verbose —
returning 0 on success and 1 on any caught exception. -/
def build_clang (dryRun verbose : Bool) (version : Int) (git_ref : Option String)
    (git_url : String) (jobs : Int) (tag_suffix : String)
    (engineResp : Except Exc (List StreamItem)) : StageResult :=
  let gitRef := git_ref.getD ("llvmorg-" ++ toString version ++ ".1.2")
  let tag := "clang-ubuntu:" ++ toString version ++ tag_suffix
  let log_file := "build-clang-" ++ toString version ++ ".log"
  let buildArgs := [("LLVM_GIT_REF", gitRef), ("LLVM_GIT_URL", git_url),
                    ("NUM_JOBS", toString jobs)]
  if dryRun then
    { result := .ok 0, calls := [], sink := none
      stdout := ["\n[DRY RUN] Would build Clang " ++ toString version,
                 "  Dockerfile: Dockerfile.clang.ubuntu",
                 "  Tag: " ++ tag,
                 "  Build args: " ++ formatArgs buildArgs,
                 "  Log file: " ++ log_file]
      stderr := [], tag := tag }
  else
    let calls := [Call.engineBuild "Dockerfile.clang.ubuntu" tag buildArgs]
    match engineResp with
    | .error e =>
        match catchExc e with
        | .ok (code, msg) =>
            { result := .ok code, calls := calls, sink := none
              stdout := [], stderr := [msg], tag := tag }
        | .error e =>
            { result := .error e, calls := calls, sink := none
              stdout := [], stderr := [], tag := tag }
    | .ok stream =>
        let s := stream_build_output stream
          ("Building Clang " ++ toString version ++ " from " ++ gitRef)
          (if verbose then none else some log_file) verbose dryRun
        match s.outcome with
        | .ok _ =>
            { result := .ok 0, calls := calls, sink := some s
              stdout := s.stdout ++ ["Successfully built " ++ tag]
              stderr := s.stderr, tag := tag }
        | .error e =>
            match catchExc e with
            | .ok (code, msg) =>
                { result := .ok code, calls := calls, sink := some s
                  stdout := s.stdout, stderr := s.stderr ++ [msg], tag := tag }
            | .error e =>
                { result := .error e, calls := calls, sink := some s
                  stdout := s.stdout, stderr := s.stderr, tag := tag }

/-- `build_devcontainer(clang_version, tag_suffix)`: derives the base image
`clang-ubuntu:{clang_version}{tag_suffix}` and the tag
`devcontainer-clang:{clang_version}{tag_suffix}`; first checks
`_image_exists` on the base image — NOTE: this check sits outside the
`try`, so an exception it raises escapes the function — and when the base is
missing prints a remediation hint and returns 1 without any engine build
call; then, in dry-run mode, prints the plan and returns 0; otherwise runs
the engine build (never with a log file) under the same `except` clauses as
`build_clang`. -/
def build_devcontainer (dryRun verbose : Bool) (clang_version : Int)
    (tag_suffix : String) (oracleResp : Except Exc Unit)
    (engineResp : Except Exc (List StreamItem)) : StageResult :=
  let clang_base_image := "clang-ubuntu:" ++ toString clang_version ++ tag_suffix
  let tag := "devcontainer-clang:" ++ toString clang_version ++ tag_suffix
  let q := image_exists dryRun clang_base_image oracleResp
  let qcalls := q.2
  match q.1 with
  | .error e =>
      { result := .error e, calls := qcalls, sink := none
        stdout := [], stderr := [], tag := tag }
  | .ok false =>
      { result := .ok 1, calls := qcalls, sink := none
        stdout := []
        stderr := ["Error: Base image " ++ clang_base_image ++
                     " not found. Build it first with:",
                   "  ./build_containers.py clang --version " ++
                     toString clang_version]
        tag := tag }
  | .ok true =>
      let buildArgs := [("CLANG_BASE_IMAGE", clang_base_image)]
      if dryRun then
        { result := .ok 0, calls := qcalls, sink := none
          stdout := ["\n[DRY RUN] Would build devcontainer with Clang " ++
                       toString clang_version,
                     "  Dockerfile: Dockerfile.devcontainer.clang",
                     "  Tag: " ++ tag,
                     "  Build args: " ++ formatArgs buildArgs]
          stderr := [], tag := tag }
      else
        let calls := qcalls ++ [Call.engineBuild "Dockerfile.devcontainer.clang" tag buildArgs]
        match engineResp with
        | .error e =>
            match catchExc e with
            | .ok (code, msg) =>
                { result := .ok code, calls := calls, sink := none
                  stdout := [], stderr := [msg], tag := tag }
            | .error e =>
                { result := .error e, calls := calls, sink := none
                  stdout := [], stderr := [], tag := tag }
        | .ok stream =>
            let s := stream_build_output stream
              ("Building devcontainer with Clang " ++ toString clang_version)
              none verbose dryRun
            match s.outcome with
            | .ok _ =>
                { result := .ok 0, calls := calls, sink := some s
                  stdout := s.stdout ++ ["Successfully built " ++ tag]
                  stderr := s.stderr, tag := tag }
            | .error e =>
                match catchExc e with
                | .ok (code, msg) =>
                    { result := .ok code, calls := calls, sink := some s
                      stdout := s.stdout, stderr := s.stderr ++ [msg], tag := tag }
                | .error e =>
                    { result := .error e, calls := calls, sink := some s
                      stdout := s.stdout, stderr := s.stderr, tag := tag }

/-- The two pipeline stages. -/
inductive StageKind where
  | compiler
  | environment
  deriving DecidableEq, Repr

/-- Observable behaviour of `build_all`: the returned exit code (or the
escaping exception), all external calls, and the stage functions actually
invoked, in order. -/
structure PipelineResult where
  result : Except Exc Int
  calls : List Call
  stages : List StageKind
  stdout : List String
  stderr : List String
  deriving Repr

/-- `build_all(clang_version, git_ref, jobs)`: runs `build_clang` (with the
default git URL and empty tag suffix), returns its result as soon as it is
nonzero, then runs `build_devcontainer` (empty tag suffix) and returns its
result when nonzero, else prints the combined success line and returns 0.
An exception escaping a stage function also escapes `build_all`, skipping
everything after it. -/
def build_all (dryRun verbose : Bool) (clang_version : Int)
    (git_ref : Option String) (jobs : Int)
    (clangEngineResp : Except Exc (List StreamItem))
    (oracleResp : Except Exc Unit)
    (devEngineResp : Except Exc (List StreamItem)) : PipelineResult :=
  let header := ["Building Clang " ++ toString clang_version ++ " and devcontainer..."]
  let r1 := build_clang dryRun verbose clang_version git_ref defaultGitUrl jobs "" clangEngineResp
  match r1.result with
  | .error e =>
      { result := .error e, calls := r1.calls, stages := [.compiler]
        stdout := header ++ r1.stdout, stderr := r1.stderr }
  | .ok code =>
      if code ≠ 0 then
        { result := .ok code, calls := r1.calls, stages := [.compiler]
          stdout := header ++ r1.stdout, stderr := r1.stderr }
      else
        let r2 := build_devcontainer dryRun verbose clang_version "" oracleResp devEngineResp
        match r2.result with
        | .error e =>
            { result := .error e, calls := r1.calls ++ r2.calls
              stages := [.compiler, .environment]
              stdout := header ++ r1.stdout ++ r2.stdout
              stderr := r1.stderr ++ r2.stderr }
        | .ok code2 =>
            if code2 ≠ 0 then
              { result := .ok code2, calls := r1.calls ++ r2.calls
                stages := [.compiler, .environment]
                stdout := header ++ r1.stdout ++ r2.stdout
                stderr := r1.stderr ++ r2.stderr }
            else
              { result := .ok 0, calls := r1.calls ++ r2.calls
                stages := [.compiler, .environment]
                stdout := header ++ r1.stdout ++ r2.stdout ++
                  ["\nSuccessfully built all containers for Clang " ++
                     toString clang_version]
                stderr := r1.stderr ++ r2.stderr }

/-- A parsed CLI subcommand with its arguments (the argument parser itself
is thin input mapping, outside the modelled core). -/
inductive Command where
  | clang (version : Int) (git_ref : Option String) (git_url : String)
      (jobs : Int) (tag_suffix : String)
  | devcontainer (clang_version : Int) (tag_suffix : String)
  | all (clang_version : Int) (git_ref : Option String) (jobs : Int)
  deriving Repr

/-- The command dispatch inside `main`'s `try` block: exit code (or
escaping exception) and the external calls of the selected builder
method. -/
def dispatchCommand (c : Command) (dryRun verbose : Bool)
    (clangEngineResp : Except Exc (List StreamItem))
    (oracleResp : Except Exc Unit)
    (devEngineResp : Except Exc (List StreamItem)) : Except Exc Int × List Call :=
  match c with
  | .clang v gr gu j ts =>
      let s := build_clang dryRun verbose v gr gu j ts clangEngineResp
      (s.result, s.calls)
  | .devcontainer v ts =>
      let s := build_devcontainer dryRun verbose v ts oracleResp devEngineResp
      (s.result, s.calls)
  | .all v gr j =>
      let p := build_all dryRun verbose v gr j clangEngineResp oracleResp devEngineResp
      (p.result, p.calls)

/-- Observable behaviour of `main`: the value returned to `sys.exit` (or an
exception escaping `main`, which would crash the interpreter), whether the
usage text was printed, and the external calls performed. -/
structure MainResult where
  result : Except Exc Int
  helpPrinted : Bool
  calls : List Call
  deriving Repr

/-- `main()`: with no subcommand, prints the usage text and returns 1
without building anything; otherwise dispatches to the selected builder
inside a `try` whose only handler is `except KeyboardInterrupt`, which
prints an interrupted message and returns 130.  Any other exception
escaping a builder escapes `main` as well. -/
def main (cmd : Option Command) (dryRun verbose : Bool)
    (clangEngineResp : Except Exc (List StreamItem))
    (oracleResp : Except Exc Unit)
    (devEngineResp : Except Exc (List StreamItem)) : MainResult :=
  match cmd with
  | none => { result := .ok 1, helpPrinted := true, calls := [] }
  | some c =>
      let r := dispatchCommand c dryRun verbose clangEngineResp oracleResp devEngineResp
      match r.1 with
      | .ok code => { result := .ok code, helpPrinted := false, calls := r.2 }
      | .error .keyboardInterrupt =>
          { result := .ok 130, helpPrinted := false, calls := r.2 }
      | .error e => { result := .error e, helpPrinted := false, calls := r.2 }

/-! ## Helper lemmas -/

/-- `true` exactly on stream items that are `status` chunks. -/
def isStatusItem : StreamItem → Bool
  | .chunk (.statusUpdate _ _) => true
  | _ => false

@[simp] theorem isStatusItem_textChunk (t : String) :
    isStatusItem (.chunk (.textChunk t)) = false := rfl

@[simp] theorem isStatusItem_statusUpdate (i : Option String) (m : String) :
    isStatusItem (.chunk (.statusUpdate i m)) = true := rfl

@[simp] theorem isStatusItem_errorSignal (m : String) :
    isStatusItem (.chunk (.errorSignal m)) = false := rfl

@[simp] theorem isStatusItem_otherChunk :
    isStatusItem (.chunk .otherChunk) = false := rfl

@[simp] theorem isStatusItem_raiseExc (e : Exc) :
    isStatusItem (.raiseExc e) = false := rfl

/-- Removing the `status` chunks from a stream changes neither the text
written to the log, nor the stderr prints, nor how the loop ends. -/
theorem streamLoop_filterStatus (verbose hasLog : Bool) (s : List StreamItem) :
    (streamLoop verbose hasLog (s.filter fun i => !isStatusItem i)).content
        = (streamLoop verbose hasLog s).content
    ∧ (streamLoop verbose hasLog (s.filter fun i => !isStatusItem i)).err
        = (streamLoop verbose hasLog s).err
    ∧ (streamLoop verbose hasLog (s.filter fun i => !isStatusItem i)).outcome
        = (streamLoop verbose hasLog s).outcome := by
  induction s with
  | nil => exact ⟨rfl, rfl, rfl⟩
  | cons a rest ih =>
    rcases a with e | e
    · rcases e with text | ⟨i, msg⟩ | msg | _ <;>
        simp [streamLoop, List.filter_cons, ih.1, ih.2.1, ih.2.2]
    · simp [streamLoop, List.filter_cons]

/-- With verbose mode off the loop prints nothing to stdout. -/
theorem streamLoop_out_nonverbose (hasLog : Bool) (s : List StreamItem) :
    (streamLoop false hasLog s).out = [] := by
  induction s with
  | nil => rfl
  | cons a rest ih =>
    rcases a with e | e
    · rcases e with text | ⟨i, msg⟩ | msg | _ <;> simp [streamLoop, ih]
    · simp [streamLoop]

/-! ## Claims -/

/-- C1: in live mode, for every version and tag suffix, when the Oracle
reports the compiler tag absent, `build_devcontainer` returns exit code 1,
prints a remediation hint naming the command that builds the missing
prerequisite, and performs no engine build call (its only external call is
the Oracle query); when the Oracle reports the tag present, the build
proceeds to the engine. -/
theorem c1_dependency_gate (verbose : Bool) (v : Int) (s : String) (msg : String)
    (engineResp : Except Exc (List StreamItem)) :
    (build_devcontainer false verbose v s (.error (.imageNotFound msg)) engineResp).result = .ok 1
    ∧ (build_devcontainer false verbose v s (.error (.imageNotFound msg)) engineResp).calls
        = [Call.oracleQuery ("clang-ubuntu:" ++ toString v ++ s)]
    ∧ ("  ./build_containers.py clang --version " ++ toString v)
        ∈ (build_devcontainer false verbose v s (.error (.imageNotFound msg)) engineResp).stderr
    ∧ (build_devcontainer false verbose v s (.ok ()) engineResp).calls
        = [Call.oracleQuery ("clang-ubuntu:" ++ toString v ++ s),
           Call.engineBuild "Dockerfile.devcontainer.clang"
             ("devcontainer-clang:" ++ toString v ++ s)
             [("CLANG_BASE_IMAGE", "clang-ubuntu:" ++ toString v ++ s)]] := by
  refine ⟨?_, ?_, ?_, ?_⟩
  · simp [build_devcontainer, image_exists]
  · simp [build_devcontainer, image_exists]
  · simp [build_devcontainer, image_exists]
  · simp only [build_devcontainer, image_exists]
    split
    all_goals try split
    all_goals try split
    all_goals try split
    all_goals try split
    all_goals simp_all

/-- C2: in `build_all`, if the Compiler stage returns a nonzero exit code,
the Environment stage is never attempted — the pipeline performs exactly
the Compiler stage's external calls (so no Oracle query and no engine call
for the Environment stage occur) — and returns the Compiler stage's
result. -/
theorem c2_short_circuit (dryRun verbose : Bool) (v : Int) (gr : Option String) (j : Int)
    (cres : Except Exc (List StreamItem)) (ores : Except Exc Unit)
    (dres : Except Exc (List StreamItem)) (c : Int)
    (h1 : (build_clang dryRun verbose v gr defaultGitUrl j "" cres).result = .ok c)
    (h2 : c ≠ 0) :
    (build_all dryRun verbose v gr j cres ores dres).result = .ok c
    ∧ (build_all dryRun verbose v gr j cres ores dres).calls
        = (build_clang dryRun verbose v gr defaultGitUrl j "" cres).calls
    ∧ (build_all dryRun verbose v gr j cres ores dres).stages = [StageKind.compiler] := by
  simp [build_all, h1, h2]

/-- Witness for C2: a live `build_all` whose engine build call raises
`BuildError` gives a Compiler stage exit code of 1, and the pipeline
returns 1 having performed only the Compiler stage's calls. -/
theorem c2_short_circuit_witness :
    ((build_clang false false 21 none defaultGitUrl 4 ""
        (.error (.buildError "x"))).result = .ok 1 ∧ (1 : Int) ≠ 0)
    ∧ ((build_all false false 21 none 4 (.error (.buildError "x")) (.ok ()) (.ok [])).result = .ok 1
       ∧ (build_all false false 21 none 4 (.error (.buildError "x")) (.ok ()) (.ok [])).calls
           = (build_clang false false 21 none defaultGitUrl 4 "" (.error (.buildError "x"))).calls
       ∧ (build_all false false 21 none 4 (.error (.buildError "x")) (.ok ()) (.ok [])).stages
           = [StageKind.compiler]) :=
  ⟨⟨rfl, by decide⟩, c2_short_circuit false false 21 none 4 _ _ _ 1 rfl (by decide)⟩

/-- Counterexample to C3 as stated: in live mode an `APIError` raised by
the Oracle's prerequisite check (`_image_exists` catches only
`ImageNotFound`, and the check sits outside `build_devcontainer`'s `try`)
escapes the stage function uncaught instead of being converted to a Failed
outcome with exit code 1. -/
theorem c3_counterexample :
    (build_devcontainer false false 21 ""
        (.error (.apiError "connection refused")) (.ok [])).result
      = .error (.apiError "connection refused")
    ∧ (build_devcontainer false false 21 ""
        (.error (.apiError "connection refused")) (.ok [])).result ≠ .ok 1 := by
  refine ⟨rfl, ?_⟩
  simp [build_devcontainer, image_exists]

/-- C3 amended: in live mode, every exception raised during the engine
build call or the log sink's iteration, other than `KeyboardInterrupt`, is
caught at the stage boundary and converted to a Failed outcome with exit
code 1, while a `KeyboardInterrupt` from either fault point propagates out
of the stage (for `main` to map to 130); an `ImageNotFound` from the
Oracle's prerequisite check yields exit code 1, but any other exception
from that check escapes `build_devcontainer` uncaught. -/
theorem c3_fault_boundary (verbose : Bool) (v : Int) (gr : Option String) (gu : String)
    (j : Int) (ts : String) :
    (∀ e : Exc, e ≠ .keyboardInterrupt →
        (build_clang false verbose v gr gu j ts (.error e)).result = .ok 1)
    ∧ (build_clang false verbose v gr gu j ts (.error .keyboardInterrupt)).result
        = .error .keyboardInterrupt
    ∧ (∀ (stream : List StreamItem) (e : Exc),
        (stream_build_output stream
            ("Building Clang " ++ toString v ++ " from " ++
              gr.getD ("llvmorg-" ++ toString v ++ ".1.2"))
            (if verbose = true then none else some ("build-clang-" ++ toString v ++ ".log"))
            verbose false).outcome = .error e →
        (e ≠ .keyboardInterrupt →
          (build_clang false verbose v gr gu j ts (.ok stream)).result = .ok 1)
        ∧ (e = .keyboardInterrupt →
          (build_clang false verbose v gr gu j ts (.ok stream)).result
            = .error .keyboardInterrupt))
    ∧ (∀ e : Exc, e ≠ .keyboardInterrupt →
        (build_devcontainer false verbose v ts (.ok ()) (.error e)).result = .ok 1)
    ∧ (build_devcontainer false verbose v ts (.ok ()) (.error .keyboardInterrupt)).result
        = .error .keyboardInterrupt
    ∧ (∀ (stream : List StreamItem) (e : Exc),
        (stream_build_output stream
            ("Building devcontainer with Clang " ++ toString v)
            none verbose false).outcome = .error e →
        (e ≠ .keyboardInterrupt →
          (build_devcontainer false verbose v ts (.ok ()) (.ok stream)).result = .ok 1)
        ∧ (e = .keyboardInterrupt →
          (build_devcontainer false verbose v ts (.ok ()) (.ok stream)).result
            = .error .keyboardInterrupt))
    ∧ (∀ (msg : String) (eres : Except Exc (List StreamItem)),
        (build_devcontainer false verbose v ts (.error (.imageNotFound msg)) eres).result = .ok 1)
    ∧ (∀ (e : Exc) (eres : Except Exc (List StreamItem)),
        (∀ m, e ≠ .imageNotFound m) →
        (build_devcontainer false verbose v ts (.error e) eres).result = .error e) := by
  refine ⟨?_, ?_, ?_, ?_, ?_, ?_, ?_, ?_⟩
  · intro e he
    cases e <;> first
      | exact absurd rfl he
      | simp [build_clang, catchExc]
  · simp [build_clang, catchExc]
  · intro stream e hout
    constructor
    · intro he
      cases e <;> first
        | exact absurd rfl he
        | simp [build_clang, catchExc, hout]
    · intro he
      subst he
      simp [build_clang, catchExc, hout]
  · intro e he
    cases e <;> first
      | exact absurd rfl he
      | simp [build_devcontainer, image_exists, catchExc]
  · simp [build_devcontainer, image_exists, catchExc]
  · intro stream e hout
    constructor
    · intro he
      cases e <;> first
        | exact absurd rfl he
        | simp [build_devcontainer, image_exists, catchExc, hout]
    · intro he
      subst he
      simp [build_devcontainer, image_exists, catchExc, hout]
  · intro msg eres
    simp [build_devcontainer, image_exists]
  · intro e eres he
    cases e with
    | imageNotFound m => exact absurd rfl (he m)
    | buildError m => simp [build_devcontainer, image_exists]
    | apiError m => simp [build_devcontainer, image_exists]
    | keyboardInterrupt => simp [build_devcontainer, image_exists]
    | otherError m => simp [build_devcontainer, image_exists]

/-- Witness for C3 amended: a `BuildError` from the engine call converts to
exit code 1, a `KeyboardInterrupt` raised mid-stream propagates out of the
stage, and a non-`ImageNotFound` `APIError` from the Oracle check escapes
`build_devcontainer`. -/
theorem c3_fault_boundary_witness :
    (build_clang false false 21 none defaultGitUrl 4 ""
        (.error (.buildError "boom"))).result = .ok 1
    ∧ (build_clang false false 21 none defaultGitUrl 4 ""
        (.ok [.raiseExc .keyboardInterrupt])).result = .error .keyboardInterrupt
    ∧ (build_devcontainer false false 21 ""
        (.error (.apiError "down")) (.ok [])).result = .error (.apiError "down") :=
  ⟨(c3_fault_boundary false 21 none defaultGitUrl 4 "").1 (.buildError "boom")
      (fun h => Exc.noConfusion h),
   ((c3_fault_boundary false 21 none defaultGitUrl 4 "").2.2.1
      [.raiseExc .keyboardInterrupt] .keyboardInterrupt rfl).2 rfl,
   (c3_fault_boundary false 21 none defaultGitUrl 4 "").2.2.2.2.2.2.2
      (.apiError "down") (.ok []) (fun _ h => Exc.noConfusion h)⟩

/-- C4: for a live Compiler build with verbose mode off whose engine event
sequence is `[TextChunk "a", TextChunk "b", ErrorSignal "boom"]`, the log
file content is `"ab"` followed by the `"ERROR: boom"` marker line, and the
stage returns exit code 1 with failure detail `"boom"`. -/
theorem c4_log_fidelity :
    (build_clang false false 21 none defaultGitUrl 4 ""
        (.ok [.chunk (.textChunk "a"), .chunk (.textChunk "b"),
              .chunk (.errorSignal "boom")])).result = .ok 1
    ∧ ((build_clang false false 21 none defaultGitUrl 4 ""
        (.ok [.chunk (.textChunk "a"), .chunk (.textChunk "b"),
              .chunk (.errorSignal "boom")])).sink.map fun s => s.content)
        = some ("ab" ++ "ERROR: boom\n")
    ∧ ("Build failed: " ++ "boom")
        ∈ (build_clang false false 21 none defaultGitUrl 4 ""
            (.ok [.chunk (.textChunk "a"), .chunk (.textChunk "b"),
                  .chunk (.errorSignal "boom")])).stderr := by
  refine ⟨rfl, rfl, ?_⟩
  simp [build_clang, stream_build_output, streamLoop, catchExc]

/-- C5: on every exit path of the log sink — stream exhaustion,
`ErrorSignal`-triggered failure, or an exception raised mid-iteration — if a
log file was opened, its handle is closed before the sink returns or
propagates, and the sink reports the log file's path exactly once. -/
theorem c5_handle_release (stream : List StreamItem) (d : String)
    (lf : Option String) (verbose dryRun : Bool)
    (h : (stream_build_output stream d lf verbose dryRun).opened = true) :
    (stream_build_output stream d lf verbose dryRun).closed = true
    ∧ (stream_build_output stream d lf verbose dryRun).pathReports = 1 := by
  simp only [stream_build_output] at h ⊢
  exact ⟨h, by simp [h]⟩

/-- Witness for C5: a sink run with a log file, interrupted mid-iteration,
was opened, and the handle is closed with the path reported once. -/
theorem c5_handle_release_witness :
    (stream_build_output [.raiseExc .keyboardInterrupt] "d" (some "x") false false).opened = true
    ∧ ((stream_build_output [.raiseExc .keyboardInterrupt] "d" (some "x") false false).closed = true
       ∧ (stream_build_output [.raiseExc .keyboardInterrupt] "d" (some "x") false false).pathReports = 1) :=
  ⟨rfl, c5_handle_release _ _ _ _ _ rfl⟩

/-- C10: `StatusUpdate` events are never written to the log file — removing
them changes neither the file content, nor the stderr prints, nor the sink's
outcome — and with verbose mode off they do not affect interactive output
either. -/
theorem c10_status_frame (stream : List StreamItem) (d : String)
    (lf : Option String) (verbose dryRun : Bool) :
    (stream_build_output (stream.filter fun i => !isStatusItem i) d lf verbose dryRun).content
        = (stream_build_output stream d lf verbose dryRun).content
    ∧ (stream_build_output (stream.filter fun i => !isStatusItem i) d lf verbose dryRun).stderr
        = (stream_build_output stream d lf verbose dryRun).stderr
    ∧ (stream_build_output (stream.filter fun i => !isStatusItem i) d lf verbose dryRun).outcome
        = (stream_build_output stream d lf verbose dryRun).outcome
    ∧ (stream_build_output (stream.filter fun i => !isStatusItem i) d lf false dryRun).stdout
        = (stream_build_output stream d lf false dryRun).stdout := by
  obtain ⟨h1, h2, h3⟩ := streamLoop_filterStatus verbose (lf.isSome && !dryRun) stream
  refine ⟨?_, ?_, ?_, ?_⟩ <;>
    simp [stream_build_output, h1, h2, h3, streamLoop_out_nonverbose,
      (streamLoop_filterStatus false (lf.isSome && !dryRun) stream).1,
      (streamLoop_filterStatus false (lf.isSome && !dryRun) stream).2.1,
      (streamLoop_filterStatus false (lf.isSome && !dryRun) stream).2.2]

/-- C6: simulation (dry-run) mode performs no engine call and no
engine-backed Oracle query — `_image_exists` answers `true` without
contacting the engine — every stage returns exit code 0, and `build_all`
attempts the stages in the same order as a live run with all dependencies
satisfied and successful builds. -/
theorem c6_simulation_mode (verbose : Bool) (v : Int) (gr : Option String) (gu : String)
    (j : Int) (ts : String) (tagq : String) (cres : Except Exc (List StreamItem))
    (ores : Except Exc Unit) (dres : Except Exc (List StreamItem)) :
    (image_exists true tagq ores).1 = .ok true
    ∧ (image_exists true tagq ores).2 = []
    ∧ (build_clang true verbose v gr gu j ts cres).result = .ok 0
    ∧ (build_clang true verbose v gr gu j ts cres).calls = []
    ∧ (build_devcontainer true verbose v ts ores dres).result = .ok 0
    ∧ (build_devcontainer true verbose v ts ores dres).calls = []
    ∧ (build_all true verbose v gr j cres ores dres).result = .ok 0
    ∧ (build_all true verbose v gr j cres ores dres).calls = []
    ∧ (build_all true verbose v gr j cres ores dres).stages
        = (build_all false verbose v gr j (.ok []) (.ok ()) (.ok [])).stages := by
  refine ⟨rfl, rfl, rfl, rfl, rfl, rfl, ?_, ?_, ?_⟩ <;>
    simp [build_all, build_clang, build_devcontainer, image_exists,
      stream_build_output, streamLoop]

/-- C7: a live stage whose engine event sequence is empty returns exit
code 0 with a success notice naming the tag — the absence of events is not
treated as a failure (shown for both stage functions). -/
theorem c7_empty_stream_success (verbose : Bool) (v : Int) (gr : Option String)
    (gu : String) (j : Int) (ts : String) :
    (build_clang false verbose v gr gu j ts (.ok [])).result = .ok 0
    ∧ ("Successfully built " ++ ("clang-ubuntu:" ++ toString v ++ ts))
        ∈ (build_clang false verbose v gr gu j ts (.ok [])).stdout
    ∧ (build_devcontainer false verbose v ts (.ok ()) (.ok [])).result = .ok 0
    ∧ ("Successfully built " ++ ("devcontainer-clang:" ++ toString v ++ ts))
        ∈ (build_devcontainer false verbose v ts (.ok ()) (.ok [])).stdout := by
  refine ⟨?_, ?_, ?_, ?_⟩ <;>
    simp [build_clang, build_devcontainer, image_exists,
      stream_build_output, streamLoop]

/-- C8: a `KeyboardInterrupt` escaping the dispatched command is caught in
`main` and mapped to exit code 130, distinct from the exit code 1 used for
build, engine and validation failures; invoking with no command prints the
usage text and returns 1. -/
theorem c8_exit_codes (dryRun verbose : Bool) (c : Command)
    (cres : Except Exc (List StreamItem)) (ores : Except Exc Unit)
    (dres : Except Exc (List StreamItem))
    (h : (dispatchCommand c dryRun verbose cres ores dres).1 = .error .keyboardInterrupt) :
    (main (some c) dryRun verbose cres ores dres).result = .ok 130
    ∧ (main none dryRun verbose cres ores dres).result = .ok 1
    ∧ (main none dryRun verbose cres ores dres).helpPrinted = true
    ∧ (130 : Int) ≠ 1 := by
  refine ⟨?_, rfl, rfl, by decide⟩
  simp [main, h]

/-- Witness for C8: a live compiler build interrupted mid-stream makes the
dispatched command raise `KeyboardInterrupt`, and `main` returns 130. -/
theorem c8_exit_codes_witness :
    ((dispatchCommand (.clang 21 none defaultGitUrl 4 "") false false
        (.ok [.raiseExc .keyboardInterrupt]) (.ok ()) (.ok [])).1
      = .error .keyboardInterrupt)
    ∧ ((main (some (.clang 21 none defaultGitUrl 4 "")) false false
          (.ok [.raiseExc .keyboardInterrupt]) (.ok ()) (.ok [])).result = .ok 130
       ∧ (main none false false
            (.ok [.raiseExc .keyboardInterrupt]) (.ok ()) (.ok [])).result = .ok 1
       ∧ (main none false false
            (.ok [.raiseExc .keyboardInterrupt]) (.ok ()) (.ok [])).helpPrinted = true
       ∧ (130 : Int) ≠ 1) :=
  ⟨rfl, c8_exit_codes false false _ _ _ _ rfl⟩

/-- C9: the Compiler stage derives its tag as `clang-ubuntu:{version}{suffix}`
and, when no git ref is supplied, the default source ref
`llvmorg-{version}.1.2`, both passed to the engine build call; for version
21 and empty suffix this gives tag `clang-ubuntu:21` and source ref
`llvmorg-21.1.2`. -/
theorem c9_tag_derivation (verbose : Bool) (v : Int) (s : String) (gu : String) (j : Int)
    (stream : List StreamItem) :
    (build_clang false verbose v none gu j s (.ok stream)).calls
      = [Call.engineBuild "Dockerfile.clang.ubuntu"
          ("clang-ubuntu:" ++ toString v ++ s)
          [("LLVM_GIT_REF", "llvmorg-" ++ toString v ++ ".1.2"),
           ("LLVM_GIT_URL", gu), ("NUM_JOBS", toString j)]]
    ∧ (build_clang false verbose v none gu j s (.ok stream)).tag
        = "clang-ubuntu:" ++ toString v ++ s
    ∧ (build_clang false false 21 none defaultGitUrl 4 "" (.ok [])).tag
        = "clang-ubuntu:21"
    ∧ (build_clang false false 21 none defaultGitUrl 4 "" (.ok [])).calls
        = [Call.engineBuild "Dockerfile.clang.ubuntu" "clang-ubuntu:21"
            [("LLVM_GIT_REF", "llvmorg-21.1.2"), ("LLVM_GIT_URL", defaultGitUrl),
             ("NUM_JOBS", "4")]] := by
  refine ⟨?_, ?_, rfl, rfl⟩ <;>
    (simp only [build_clang]
     split
     all_goals try split
     all_goals try split
     all_goals try split
     all_goals simp_all)

end BuildContainers
